import Mathlib

/-!
Shallow embedding of the sale-transaction core of the POS backend
(src/routes/sales.js, with the stock-status derivations of the product
routes in src/routes/auth.js).  SQLite rows become Lean structures,
tables become lists of rows, and the serialized callback chain of
createSale / voidSale becomes sequential state passing: a transaction
runs on a working copy of the store, `ROLLBACK` returns the original
store, `COMMIT` installs the working copy.
-/

/-- Stock status values written by the code as the strings
`in_stock`, `low_stock`, `out_of_stock`. -/
inductive StockStatus where
  | in_stock
  | low_stock
  | out_of_stock
deriving DecidableEq

/-- Status computation inlined in processNext, src/routes/sales.js lines 104-106:
`let newStatus = 'in_stock'; if (newQty === 0) newStatus = 'out_of_stock';
else if (newQty <= product.min_stock) newStatus = 'low_stock';` -/
def salesNewStatus (newQty min_stock : Int) : StockStatus :=
  if newQty = 0 then StockStatus.out_of_stock
  else if newQty ≤ min_stock then StockStatus.low_stock
  else StockStatus.in_stock

/-- Status computation inlined in POST /api/products, src/routes/auth.js
lines 430-435 (`qty === 0` then `qty <= minStock`). -/
def productCreateStatus (qty minStock : Int) : StockStatus :=
  if qty = 0 then StockStatus.out_of_stock
  else if qty ≤ minStock then StockStatus.low_stock
  else StockStatus.in_stock

/-- Status computation inlined in PUT /api/products/:id, src/routes/auth.js
lines 491-493. -/
def productUpdateStatus (qty minStock : Int) : StockStatus :=
  if qty = 0 then StockStatus.out_of_stock
  else if qty ≤ minStock then StockStatus.low_stock
  else StockStatus.in_stock

/-- deriveStatus in the words of the spec: `out_of_stock` iff quantity=0;
`low_stock` iff 0<quantity≤min_stock; else `in_stock`.  Kept separate from
the code-derived functions above for refinement comparison. -/
def deriveStatusSpec (quantity min_stock : Int) : StockStatus :=
  if quantity = 0 then StockStatus.out_of_stock
  else if 0 < quantity ∧ quantity ≤ min_stock then StockStatus.low_stock
  else StockStatus.in_stock

/-- A row of the products table, restricted to the columns the sales core
reads and writes. -/
structure Product where
  id : Nat
  name : String
  quantity : Int
  min_stock : Int
  status : StockStatus
deriving DecidableEq

/-- A row of the sales table (header of a checkout). -/
structure SaleRow where
  id : Nat
  invoice_number : String
  user_id : Nat
  customer_name : String
  subtotal : Int
  tax : Int
  discount : Int
  grand_total : Int
  payment_method : String
deriving DecidableEq

/-- A row of the sale_items table. -/
structure SaleItemRow where
  sale_id : Nat
  product_id : Nat
  quantity : Int
  price : Int
  total : Int
deriving DecidableEq

/-- One element of the request body's items array:
`{product_id, quantity, price, total?}`. -/
structure SaleItemInput where
  product_id : Nat
  quantity : Int
  price : Int
  total : Option Int
deriving DecidableEq

/-- The createSale request body.  `items = none` models a missing or
non-array items field; `grand_total = none` models a missing grand_total.
Absent optional fields are `none`. -/
structure SaleRequest where
  customer_name : Option String
  items : Option (List SaleItemInput)
  subtotal : Option Int
  tax : Option Int
  discount : Option Int
  grand_total : Option Int
  payment_method : Option String
deriving DecidableEq

/-- The persistent store: the three tables the sales routes touch, plus the
connection's last_insert_rowid and the next rowid the sales table would
assign. -/
structure Store where
  products : List Product
  sales : List SaleRow
  sale_items : List SaleItemRow
  lastInsertRowid : Nat
  nextSaleId : Nat
deriving DecidableEq

/-- JavaScript truthiness of an optional numeric field: `!x` is true when
the field is absent or 0. -/
def truthyInt : Option Int → Bool
  | none => false
  | some v => v ≠ 0

/-- JavaScript `x || d` for an optional string: absent or empty gives the
default. -/
def jsOrStr (o : Option String) (d : String) : String :=
  match o with
  | none => d
  | some s => if s = "" then d else s

/-- JavaScript `x || 0` for an optional number. -/
def jsOrZero (o : Option Int) : Int :=
  match o with
  | none => 0
  | some v => v

def walkInCustomer : String := "Walk-in Customer"

def defaultPayment : String := "cash"

/-- Modelled from the spec: the sales table's CHECK constraint on
payment_method.  The schema file (database.js) is not among the provided
sources; spec section 3 gives payment_method ∈ cash / card / online. -/
def paymentMethodOk (pm : String) : Bool :=
  pm = "cash" || pm = "card" || pm = "online"

/-- The total persisted for one sale item, src/routes/sales.js line 99:
`item.total || (item.quantity * item.price)` — a provided 0 is falsy and
falls back to quantity*price. -/
def itemTotal (item : SaleItemInput) : Int :=
  match item.total with
  | none => item.quantity * item.price
  | some t => if t ≠ 0 then t else item.quantity * item.price

/-- The sale_items row inserted for one item (src/routes/sales.js
lines 97-100). -/
def mkSaleItemRow (saleId : Nat) (item : SaleItemInput) : SaleItemRow :=
  { sale_id := saleId
    product_id := item.product_id
    quantity := item.quantity
    price := item.price
    total := itemTotal item }

/-- Error taxonomy of the sales routes.  `validation` errors are returned
before the transaction opens. -/
inductive SaleError where
  | validation (msg : String)
  | productNotFound (pid : Nat)
  | insufficientStock (name : String) (available requested : Int)
  | saleNotFound
deriving DecidableEq

def noItemsMsg : String := "No items provided."

def noGrandTotalMsg : String := "Grand total is required."

/-- The sale-header INSERT, src/routes/sales.js lines 32-46.  The source
issues `db.run` with NO callback, so an insert failure (e.g. the
payment_method CHECK constraint) is silently ignored: the row is simply not
inserted and last_insert_rowid keeps its previous value. -/
def insertHeader (s : Store) (req : SaleRequest) (userId : Nat)
    (invoice : String) : Store :=
  let pm := jsOrStr req.payment_method defaultPayment
  if paymentMethodOk pm then
    { s with
        sales := s.sales ++
          [{ id := s.nextSaleId
             invoice_number := invoice
             user_id := userId
             customer_name := jsOrStr req.customer_name walkInCustomer
             subtotal := jsOrZero req.subtotal
             tax := jsOrZero req.tax
             discount := jsOrZero req.discount
             grand_total := jsOrZero req.grand_total
             payment_method := pm }]
        lastInsertRowid := s.nextSaleId
        nextSaleId := s.nextSaleId + 1 }
  else s

/-- The UPDATE of src/routes/sales.js lines 108-111: `UPDATE products SET
quantity = ?, status = ? WHERE id = ?` — every row whose id matches gets
the new absolute quantity and status, as SQL does. -/
def updateProducts (pid : Nat) (newQty : Int) (newStatus : StockStatus)
    (ps : List Product) : List Product :=
  ps.map (fun p =>
    if p.id == pid then { p with quantity := newQty, status := newStatus } else p)

/-- The processNext loop, src/routes/sales.js lines 60-117: for each item in
order, look up the product (fail productNotFound if absent), check
`product.quantity < item.quantity` (fail insufficientStock), insert the
sale_items row, and write the decremented quantity with the re-derived
status. -/
def processItems (saleId : Nat) : List SaleItemInput → Store → Except SaleError Store
  | [], s => Except.ok s
  | item :: rest, s =>
    match s.products.find? (fun p => p.id == item.product_id) with
    | none => Except.error (SaleError.productNotFound item.product_id)
    | some product =>
      if product.quantity < item.quantity then
        Except.error
          (SaleError.insufficientStock product.name product.quantity item.quantity)
      else
        let newQty := product.quantity - item.quantity
        let newStatus := salesNewStatus newQty product.min_stock
        let s2 : Store :=
          { s with
              sale_items := s.sale_items ++ [mkSaleItemRow saleId item]
              products := updateProducts item.product_id newQty newStatus s.products }
        processItems saleId rest s2

/-- POST /api/sales, src/routes/sales.js lines 14-122.  Validation happens
before the transaction opens; the transaction runs on a working copy; any
item failure rolls back (the original store is returned with the error);
success commits the working copy and returns the sale id read from
last_insert_rowid after the header insert. -/
def createSale (s : Store) (req : SaleRequest) (userId : Nat)
    (invoice : String) : Store × Except SaleError Nat :=
  match req.items with
  | none => (s, Except.error (SaleError.validation noItemsMsg))
  | some items =>
    if items.length = 0 then
      (s, Except.error (SaleError.validation noItemsMsg))
    else if truthyInt req.grand_total = false then
      (s, Except.error (SaleError.validation noGrandTotalMsg))
    else
      let w := insertHeader s req userId invoice
      let saleId := w.lastInsertRowid
      match processItems saleId items w with
      | Except.error e => (s, Except.error e)
      | Except.ok w2 => (w2, Except.ok saleId)

/-- The stock-restore loop of DELETE /api/sales/:id, src/routes/sales.js
lines 211-214: for each sale_items row, `UPDATE products SET quantity =
quantity + ? WHERE id = ?`.  Note: only quantity is written; status is not
recomputed. -/
def restoreStock : List SaleItemRow → List Product → List Product
  | [], ps => ps
  | row :: rest, ps =>
    restoreStock rest (ps.map (fun p =>
      if p.id == row.product_id then { p with quantity := p.quantity + row.quantity }
      else p))

/-- DELETE /api/sales/:id, src/routes/sales.js lines 203-228: read the
sale's items, restore stock for each, delete the sale_items rows, delete
the sales row; if the sales DELETE affected zero rows, roll back and fail
with saleNotFound, else commit. -/
def voidSale (s : Store) (saleId : Nat) : Store × Except SaleError Unit :=
  let rows := s.sale_items.filter (fun si => si.sale_id == saleId)
  let ps := restoreStock rows s.products
  let remainingItems := s.sale_items.filter (fun si => !(si.sale_id == saleId))
  let changes := (s.sales.filter (fun r => r.id == saleId)).length
  if changes = 0 then
    (s, Except.error SaleError.saleNotFound)
  else
    ({ s with
        products := ps
        sale_items := remainingItems
        sales := s.sales.filter (fun r => !(r.id == saleId)) },
     Except.ok ())

/-- Net quantity a list of request items removes from the product with the
given id. -/
def itemsDelta (pid : Nat) : List SaleItemInput → Int
  | [] => 0
  | i :: rest => (if i.product_id == pid then i.quantity else 0) + itemsDelta pid rest

/-- Net quantity a list of sale_items rows adds back to the product with
the given id. -/
def rowsDelta (pid : Nat) : List SaleItemRow → Int
  | [] => 0
  | r :: rest => (if r.product_id == pid then r.quantity else 0) + rowsDelta pid rest

/-- The (id, quantity) view of a products table. -/
def qtyView (ps : List Product) : List (Nat × Int) :=
  ps.map (fun p => (p.id, p.quantity))

/-- The per-product derived-status invariant of the spec. -/
def statusOk (p : Product) : Prop :=
  p.status = salesNewStatus p.quantity p.min_stock

instance statusOkDecidable (p : Product) : Decidable (statusOk p) :=
  inferInstanceAs (Decidable (p.status = salesNewStatus p.quantity p.min_stock))

/-! ### Concrete stores and requests used by witnesses and counterexamples -/

def prodA : Product :=
  { id := 1, name := "A", quantity := 5, min_stock := 2, status := StockStatus.in_stock }

def baseStore : Store :=
  { products := [prodA], sales := [], sale_items := [], lastInsertRowid := 0,
    nextSaleId := 1 }

def invStr : String := "INV-1"

def mkReq (items : List SaleItemInput) (gt : Int) : SaleRequest :=
  { customer_name := none, items := some items, subtotal := none, tax := none,
    discount := none, grand_total := some gt, payment_method := none }

def itemQty (pid : Nat) (n : Int) : SaleItemInput :=
  { product_id := pid, quantity := n, price := 10, total := none }

def itemZeroTotal : SaleItemInput :=
  { product_id := 1, quantity := 2, price := 5, total := some 0 }

def reqMissingProduct : SaleRequest := mkReq [itemQty 99 1] 5

def reqNegTotal : SaleRequest := mkReq [itemQty 1 1] (-5)

def bitcoinStr : String := "bitcoin"

def reqBadPayment : SaleRequest :=
  { mkReq [itemQty 1 1] 10 with payment_method := some bitcoinStr }

/-- Store whose connection has already inserted other rows: last_insert_rowid
is 7 and the next sales rowid would be 8. -/
def staleStore : Store :=
  { products := [prodA], sales := [], sale_items := [], lastInsertRowid := 7,
    nextSaleId := 8 }

/-- The store staleStore reaches when processItems runs with the stale sale
id 7. -/
def staleResult : Store :=
  { products := [{ id := 1, name := "A", quantity := 4, min_stock := 2,
                   status := StockStatus.in_stock }]
    sales := []
    sale_items := [{ sale_id := 7, product_id := 1, quantity := 1, price := 10,
                     total := 10 }]
    lastInsertRowid := 7
    nextSaleId := 8 }

/-- Store for the void counterexample: its product satisfies the derived
status invariant, and sale 5 has one item of quantity 3. -/
def voidStore : Store :=
  { products := [{ id := 1, name := "A", quantity := 0, min_stock := 2,
                   status := StockStatus.out_of_stock }]
    sales := [{ id := 5, invoice_number := invStr, user_id := 7,
                customer_name := walkInCustomer, subtotal := 0, tax := 0,
                discount := 0, grand_total := 30,
                payment_method := defaultPayment }]
    sale_items := [{ sale_id := 5, product_id := 1, quantity := 3, price := 10,
                     total := 30 }]
    lastInsertRowid := 5
    nextSaleId := 6 }

/-- The store createSale produces from baseStore for a single item of
quantity 3 on product 1 (used by the void witness). -/
def createdStore : Store :=
  { products := [{ id := 1, name := "A", quantity := 2, min_stock := 2,
                   status := StockStatus.low_stock }]
    sales := [{ id := 1, invoice_number := invStr, user_id := 7,
                customer_name := walkInCustomer, subtotal := 0, tax := 0,
                discount := 0, grand_total := 30,
                payment_method := defaultPayment }]
    sale_items := [{ sale_id := 1, product_id := 1, quantity := 3, price := 10,
                     total := 30 }]
    lastInsertRowid := 1
    nextSaleId := 2 }

/-! ### Helper lemmas about the products-table update and lookup -/

theorem find_map_upd (pid : Nat) (g : Product → Product)
    (hg : ∀ p, (g p).id = p.id) :
    ∀ (ps : List Product) (q : Product),
      ps.find? (fun p => p.id == pid) = some q →
      (ps.map (fun p => if p.id == pid then g p else p)).find?
          (fun p => p.id == pid) = some (g q) := by
  intro ps
  induction ps with
  | nil => intro q h; simp at h
  | cons hd tl ih =>
    intro q h
    by_cases hhd : hd.id = pid
    · rw [List.find?_cons_of_pos _ (by simp [hhd])] at h
      injection h with h
      subst h
      simp only [List.map_cons, if_pos (show (hd.id == pid) = true by simp [hhd])]
      exact List.find?_cons_of_pos _ (by simp [hg, hhd])
    · rw [List.find?_cons_of_neg _ (by simp [hhd])] at h
      simp only [List.map_cons, if_neg (show ¬ (hd.id == pid) = true by simp [hhd])]
      rw [List.find?_cons_of_neg _ (by simp [hhd])]
      exact ih q h

theorem mem_eq_find_of_nodup (pid : Nat) :
    ∀ (ps : List Product), (ps.map Product.id).Nodup →
      ∀ q, ps.find? (fun p => p.id == pid) = some q →
        ∀ p ∈ ps, p.id = pid → p = q := by
  intro ps
  induction ps with
  | nil => intro _ q h; simp at h
  | cons hd tl ih =>
    intro hnd q hfind p hp hpid
    simp only [List.map_cons, List.nodup_cons] at hnd
    by_cases hhd : hd.id = pid
    · rw [List.find?_cons_of_pos _ (by simp [hhd])] at hfind
      injection hfind with hfind
      subst hfind
      rcases List.mem_cons.mp hp with rfl | hmem
      · rfl
      · have hin : p.id ∈ tl.map Product.id := List.mem_map_of_mem Product.id hmem
        rw [hpid, ← hhd] at hin
        exact absurd hin hnd.1
    · rw [List.find?_cons_of_neg _ (by simp [hhd])] at hfind
      rcases List.mem_cons.mp hp with rfl | hmem
      · exact absurd hpid hhd
      · exact ih hnd.2 q hfind p hmem hpid

theorem updateProducts_id_map (pid : Nat) (newQty : Int) (st : StockStatus)
    (ps : List Product) :
    (updateProducts pid newQty st ps).map Product.id = ps.map Product.id := by
  induction ps with
  | nil => rfl
  | cons hd tl ih =>
    simp only [updateProducts, List.map_cons] at ih ⊢
    rw [ih]
    by_cases h : (hd.id == pid) = true <;> simp [h]

theorem processItems_cons_ok (saleId : Nat) (item : SaleItemInput)
    (rest : List SaleItemInput) (s : Store) (product : Product)
    (hfind : s.products.find? (fun p => p.id == item.product_id) = some product)
    (hq : ¬ product.quantity < item.quantity) :
    processItems saleId (item :: rest) s =
      processItems saleId rest
        { s with
            sale_items := s.sale_items ++ [mkSaleItemRow saleId item]
            products := updateProducts item.product_id
              (product.quantity - item.quantity)
              (salesNewStatus (product.quantity - item.quantity) product.min_stock)
              s.products } := by
  simp [processItems, hfind, hq]

theorem processItems_ok_shape (saleId : Nat) :
    ∀ (items : List SaleItemInput) (s s2 : Store),
      processItems saleId items s = Except.ok s2 →
      s2.sales = s.sales ∧
      s2.sale_items = s.sale_items ++ items.map (mkSaleItemRow saleId) ∧
      s2.products.map Product.id = s.products.map Product.id ∧
      s2.lastInsertRowid = s.lastInsertRowid ∧
      s2.nextSaleId = s.nextSaleId := by
  intro items
  induction items with
  | nil =>
    intro s s2 h
    simp only [processItems] at h
    injection h with h
    subst h
    simp
  | cons item rest ih =>
    intro s s2 h
    cases hfind : s.products.find? (fun p => p.id == item.product_id) with
    | none => simp [processItems, hfind] at h
    | some product =>
      by_cases hq : product.quantity < item.quantity
      · simp [processItems, hfind, hq] at h
      · rw [processItems_cons_ok saleId item rest s product hfind hq] at h
        obtain ⟨h1, h2, h3, h4, h5⟩ := ih _ _ h
        refine ⟨h1, ?_, ?_, h4, h5⟩
        · rw [h2]; simp
        · rw [h3]; exact updateProducts_id_map _ _ _ _

theorem processItems_ok_qty (saleId : Nat) :
    ∀ (items : List SaleItemInput) (s s2 : Store),
      processItems saleId items s = Except.ok s2 →
      (s.products.map Product.id).Nodup →
      qtyView s2.products =
        s.products.map (fun p => (p.id, p.quantity - itemsDelta p.id items)) := by
  intro items
  induction items with
  | nil =>
    intro s s2 h _
    simp only [processItems] at h
    injection h with h
    subst h
    simp [qtyView, itemsDelta]
  | cons item rest ih =>
    intro s s2 h hnd
    cases hfind : s.products.find? (fun p => p.id == item.product_id) with
    | none => simp [processItems, hfind] at h
    | some product =>
      by_cases hq : product.quantity < item.quantity
      · simp [processItems, hfind, hq] at h
      · rw [processItems_cons_ok saleId item rest s product hfind hq] at h
        have hnd2 : ((updateProducts item.product_id (product.quantity - item.quantity)
            (salesNewStatus (product.quantity - item.quantity) product.min_stock)
            s.products).map Product.id).Nodup := by
          rw [updateProducts_id_map]; exact hnd
        have hih := ih _ _ h hnd2
        simp only at hih
        rw [hih]
        unfold updateProducts
        rw [List.map_map]
        apply List.map_congr_left
        intro p hp
        by_cases hpid : p.id = item.product_id
        · have hpq : p = product :=
            mem_eq_find_of_nodup item.product_id s.products hnd product hfind p hp hpid
          subst hpq
          simp only [Function.comp_apply,
            if_pos (show (p.id == item.product_id) = true by simp [hpid])]
          simp only [itemsDelta, show (item.product_id == p.id) = true by simp [hpid]]
          simp only [if_pos]
          exact congrArg (fun z => (p.id, z)) (by omega)
        · simp only [Function.comp_apply,
            if_neg (show ¬ (p.id == item.product_id) = true by simp [hpid])]
          have hne : (item.product_id == p.id) = false := by
            rw [beq_eq_false_iff_ne]
            omega
          simp [itemsDelta, hne]

theorem processItems_ok_statusOk (saleId : Nat) :
    ∀ (items : List SaleItemInput) (s s2 : Store),
      processItems saleId items s = Except.ok s2 →
      (s.products.map Product.id).Nodup →
      (∀ p ∈ s.products, statusOk p) →
      ∀ p ∈ s2.products, statusOk p := by
  intro items
  induction items with
  | nil =>
    intro s s2 h _ hinv
    simp only [processItems] at h
    injection h with h
    subst h
    exact hinv
  | cons item rest ih =>
    intro s s2 h hnd hinv
    cases hfind : s.products.find? (fun p => p.id == item.product_id) with
    | none => simp [processItems, hfind] at h
    | some product =>
      by_cases hq : product.quantity < item.quantity
      · simp [processItems, hfind, hq] at h
      · rw [processItems_cons_ok saleId item rest s product hfind hq] at h
        apply ih _ _ h
        · simp only
          rw [updateProducts_id_map]
          exact hnd
        · intro p' hp'
          simp only [updateProducts] at hp'
          rcases List.mem_map.mp hp' with ⟨p, hp, rfl⟩
          by_cases hpid : p.id = item.product_id
          · have hpq : p = product :=
              mem_eq_find_of_nodup item.product_id s.products hnd product hfind p hp hpid
            subst hpq
            simp only [if_pos (show (p.id == item.product_id) = true by simp [hpid])]
            unfold statusOk
            rfl
          · simp only [if_neg (show ¬ (p.id == item.product_id) = true by simp [hpid])]
            exact hinv p hp

theorem processItems_no_validation (saleId : Nat) :
    ∀ (items : List SaleItemInput) (s : Store) (msg : String),
      processItems saleId items s ≠ Except.error (SaleError.validation msg) := by
  intro items
  induction items with
  | nil => intro s msg h; simp [processItems] at h
  | cons item rest ih =>
    intro s msg h
    cases hfind : s.products.find? (fun p => p.id == item.product_id) with
    | none => simp [processItems, hfind] at h
    | some product =>
      by_cases hq : product.quantity < item.quantity
      · simp [processItems, hfind, hq] at h
      · rw [processItems_cons_ok saleId item rest s product hfind hq] at h
        exact ih _ msg h

theorem restoreStock_qty :
    ∀ (rows : List SaleItemRow) (ps : List Product),
      qtyView (restoreStock rows ps) =
        ps.map (fun p => (p.id, p.quantity + rowsDelta p.id rows)) := by
  intro rows
  induction rows with
  | nil => intro ps; simp [restoreStock, rowsDelta, qtyView]
  | cons row rest ih =>
    intro ps
    simp only [restoreStock]
    rw [ih, List.map_map]
    apply List.map_congr_left
    intro p _
    by_cases hpid : p.id = row.product_id
    · simp only [Function.comp_apply,
        if_pos (show (p.id == row.product_id) = true by simp [hpid])]
      simp only [rowsDelta, show (row.product_id == p.id) = true by simp [hpid],
        if_pos]
      exact congrArg (fun z => (p.id, z)) (by omega)
    · simp only [Function.comp_apply,
        if_neg (show ¬ (p.id == row.product_id) = true by simp [hpid])]
      have hne : (row.product_id == p.id) = false := by
        rw [beq_eq_false_iff_ne]
        omega
      simp [rowsDelta, hne]

theorem restoreStock_fields :
    ∀ (rows : List SaleItemRow) (ps : List Product),
      (restoreStock rows ps).map (fun p => (p.id, p.min_stock, p.status, p.name)) =
        ps.map (fun p => (p.id, p.min_stock, p.status, p.name)) := by
  intro rows
  induction rows with
  | nil => intro ps; simp [restoreStock]
  | cons row rest ih =>
    intro ps
    simp only [restoreStock]
    rw [ih, List.map_map]
    apply List.map_congr_left
    intro p _
    by_cases hpid : p.id = row.product_id
    · simp only [Function.comp_apply,
        if_pos (show (p.id == row.product_id) = true by simp [hpid])]
    · simp only [Function.comp_apply,
        if_neg (show ¬ (p.id == row.product_id) = true by simp [hpid])]

theorem rowsDelta_map_mk (pid saleId : Nat) :
    ∀ (items : List SaleItemInput),
      rowsDelta pid (items.map (mkSaleItemRow saleId)) = itemsDelta pid items := by
  intro items
  induction items with
  | nil => rfl
  | cons i rest ih => simp [rowsDelta, itemsDelta, mkSaleItemRow, ih]

theorem createSale_error_store (s : Store) (req : SaleRequest) (userId : Nat)
    (invoice : String) (e : SaleError)
    (h : (createSale s req userId invoice).2 = Except.error e) :
    (createSale s req userId invoice).1 = s := by
  unfold createSale at h ⊢
  cases hitems : req.items with
  | none => simp
  | some items =>
    simp only [hitems] at h ⊢
    by_cases hlen : items.length = 0
    · simp [hlen]
    · simp only [if_neg hlen] at h ⊢
      by_cases hgt : truthyInt req.grand_total = false
      · simp [hgt]
      · simp only [if_neg hgt] at h ⊢
        cases hrun : processItems (insertHeader s req userId invoice).lastInsertRowid
            items (insertHeader s req userId invoice) with
        | error e2 => simp [hrun]
        | ok w2 => simp [hrun] at h

theorem insertHeader_products (s : Store) (req : SaleRequest) (userId : Nat)
    (invoice : String) :
    (insertHeader s req userId invoice).products = s.products := by
  by_cases h : paymentMethodOk (jsOrStr req.payment_method defaultPayment) = true <;>
    simp [insertHeader, h]

theorem insertHeader_sale_items (s : Store) (req : SaleRequest) (userId : Nat)
    (invoice : String) :
    (insertHeader s req userId invoice).sale_items = s.sale_items := by
  by_cases h : paymentMethodOk (jsOrStr req.payment_method defaultPayment) = true <;>
    simp [insertHeader, h]

theorem createSale_run (s : Store) (req : SaleRequest) (userId : Nat)
    (invoice : String) (items : List SaleItemInput)
    (hitems : req.items = some items) (hlen : items.length ≠ 0)
    (hgt : truthyInt req.grand_total = true) :
    createSale s req userId invoice =
      match processItems (insertHeader s req userId invoice).lastInsertRowid
          items (insertHeader s req userId invoice) with
      | Except.error e => (s, Except.error e)
      | Except.ok w2 =>
        (w2, Except.ok (insertHeader s req userId invoice).lastInsertRowid) := by
  simp [createSale, hitems, hlen, hgt]

theorem createSale_ok_inv (s : Store) (req : SaleRequest) (userId : Nat)
    (invoice : String) (s2 : Store) (saleId : Nat)
    (h : createSale s req userId invoice = (s2, Except.ok saleId)) :
    ∃ items, req.items = some items ∧ items.length ≠ 0 ∧
      truthyInt req.grand_total = true ∧
      saleId = (insertHeader s req userId invoice).lastInsertRowid ∧
      processItems saleId items (insertHeader s req userId invoice) =
        Except.ok s2 := by
  cases hitems : req.items with
  | none => unfold createSale at h; rw [hitems] at h; simp at h
  | some items =>
    by_cases hlen : items.length = 0
    · unfold createSale at h
      rw [hitems] at h
      simp [hlen] at h
    · by_cases hgt : truthyInt req.grand_total = false
      · unfold createSale at h
        rw [hitems] at h
        simp [hlen, hgt] at h
      · have hgt2 : truthyInt req.grand_total = true := Bool.eq_true_of_not_eq_false hgt
        rw [createSale_run s req userId invoice items hitems hlen hgt2] at h
        cases hrun : processItems (insertHeader s req userId invoice).lastInsertRowid
            items (insertHeader s req userId invoice) with
        | error e => rw [hrun] at h; simp at h
        | ok w2 =>
          rw [hrun] at h
          simp only [Prod.mk.injEq, Except.ok.injEq] at h
          obtain ⟨rfl, rfl⟩ := h
          exact ⟨items, rfl, hlen, hgt2, rfl, hrun⟩

theorem filter_rows_of_ne (n : Nat) :
    ∀ (l : List SaleItemRow), (∀ si ∈ l, si.sale_id ≠ n) →
      l.filter (fun si => si.sale_id == n) = [] ∧
      l.filter (fun si => !(si.sale_id == n)) = l := by
  intro l
  induction l with
  | nil => intro _; exact ⟨rfl, rfl⟩
  | cons hd tl ih =>
    intro h
    have hhd : hd.sale_id ≠ n := h hd (List.mem_cons_self hd tl)
    have hb : (hd.sale_id == n) = false := by rw [beq_eq_false_iff_ne]; exact hhd
    obtain ⟨ih1, ih2⟩ := ih (fun si hsi => h si (List.mem_cons_of_mem hd hsi))
    refine ⟨?_, ?_⟩
    · simp [List.filter_cons, hb, ih1]
    · simp [List.filter_cons, hb, ih2]

theorem filter_mk_rows (saleId : Nat) :
    ∀ (items : List SaleItemInput),
      (items.map (mkSaleItemRow saleId)).filter (fun si => si.sale_id == saleId) =
        items.map (mkSaleItemRow saleId) ∧
      (items.map (mkSaleItemRow saleId)).filter
          (fun si => !(si.sale_id == saleId)) = [] := by
  intro items
  induction items with
  | nil => exact ⟨rfl, rfl⟩
  | cons i rest ih =>
    have hb : ((mkSaleItemRow saleId i).sale_id == saleId) = true := by
      simp [mkSaleItemRow]
    obtain ⟨ih1, ih2⟩ := ih
    refine ⟨?_, ?_⟩
    · simp [List.filter_cons, hb, ih1]
    · simp [List.filter_cons, hb, ih2]

theorem filter_sales_of_ne (n : Nat) :
    ∀ (l : List SaleRow), (∀ r ∈ l, r.id ≠ n) →
      l.filter (fun r => r.id == n) = [] ∧
      l.filter (fun r => !(r.id == n)) = l := by
  intro l
  induction l with
  | nil => intro _; exact ⟨rfl, rfl⟩
  | cons hd tl ih =>
    intro h
    have hhd : hd.id ≠ n := h hd (List.mem_cons_self hd tl)
    have hb : (hd.id == n) = false := by rw [beq_eq_false_iff_ne]; exact hhd
    obtain ⟨ih1, ih2⟩ := ih (fun r hr => h r (List.mem_cons_of_mem hd hr))
    refine ⟨?_, ?_⟩
    · simp [List.filter_cons, hb, ih1]
    · simp [List.filter_cons, hb, ih2]

theorem qty_restore_cancel (items : List SaleItemInput) (rows : List SaleItemRow)
    (ps qs : List Product)
    (h : qtyView qs = ps.map (fun p => (p.id, p.quantity - itemsDelta p.id items)))
    (hdelta : ∀ pid, rowsDelta pid rows = itemsDelta pid items) :
    qtyView (restoreStock rows qs) = qtyView ps := by
  rw [restoreStock_qty]
  have hfact : qs.map (fun p => (p.id, p.quantity + rowsDelta p.id rows)) =
      (qtyView qs).map (fun pr => (pr.1, pr.2 + rowsDelta pr.1 rows)) := by
    unfold qtyView
    rw [List.map_map]
    rfl
  rw [hfact, h, List.map_map]
  unfold qtyView
  apply List.map_congr_left
  intro p _
  simp only [Function.comp_apply, hdelta]
  exact congrArg (fun z => (p.id, z)) (by omega)

theorem processItems_cons_insufficient (saleId : Nat) (item : SaleItemInput)
    (rest : List SaleItemInput) (s : Store) (product : Product)
    (hfind : s.products.find? (fun p => p.id == item.product_id) = some product)
    (hq : product.quantity < item.quantity) :
    processItems saleId (item :: rest) s =
      Except.error (SaleError.insufficientStock product.name product.quantity
        item.quantity) := by
  simp [processItems, hfind, hq]

/-! ### Claim theorems -/

/-- C6 (amended): the status derivation inlined in the sale processor and in
the product editor's create and update paths is the same pure total function
of (quantity, min_stock); for every quantity ≥ 0 it returns out_of_stock iff
quantity = 0, low_stock iff 0 < quantity ≤ min_stock, and in_stock
otherwise.  (For negative quantities the code returns low_stock whenever
quantity ≤ min_stock, so the characterization is restricted to
quantity ≥ 0.) -/
theorem c6_amended :
    (∀ q m : Int, salesNewStatus q m = productCreateStatus q m ∧
        salesNewStatus q m = productUpdateStatus q m) ∧
    (∀ q m : Int, 0 ≤ q →
      salesNewStatus q m = deriveStatusSpec q m ∧
      (salesNewStatus q m = StockStatus.out_of_stock ↔ q = 0) ∧
      (salesNewStatus q m = StockStatus.low_stock ↔ 0 < q ∧ q ≤ m) ∧
      (salesNewStatus q m = StockStatus.in_stock ↔ ¬ q = 0 ∧ ¬ (0 < q ∧ q ≤ m))) := by
  constructor
  · intro q m
    exact ⟨rfl, rfl⟩
  · intro q m hq
    unfold salesNewStatus deriveStatusSpec
    by_cases h0 : q = 0
    · simp [h0]
    · have hpos : 0 < q := by omega
      by_cases h1 : q ≤ m
      · simp [h0, h1, hpos]
      · simp [h0, h1, hpos]

/-- Witness for C6 at concrete inputs. -/
theorem c6_witness :
    (salesNewStatus (-7) 4 = productCreateStatus (-7) 4 ∧
      salesNewStatus (-7) 4 = productUpdateStatus (-7) 4) ∧
    (salesNewStatus 3 5 = deriveStatusSpec 3 5 ∧
      (salesNewStatus 3 5 = StockStatus.out_of_stock ↔ (3 : Int) = 0) ∧
      (salesNewStatus 3 5 = StockStatus.low_stock ↔ 0 < (3 : Int) ∧ (3 : Int) ≤ 5) ∧
      (salesNewStatus 3 5 = StockStatus.in_stock ↔
        ¬ (3 : Int) = 0 ∧ ¬ (0 < (3 : Int) ∧ (3 : Int) ≤ 5))) :=
  ⟨c6_amended.1 (-7) 4, c6_amended.2 3 5 (by decide)⟩

/-- C6 counterexample: at quantity -1, min_stock 5 all three sites return
low_stock, although the claim's characterization over all integers
(low_stock iff 0 < quantity ≤ min_stock, in_stock otherwise) demands
in_stock there. -/
theorem c6_counterexample :
    salesNewStatus (-1) 5 = StockStatus.low_stock ∧
    productCreateStatus (-1) 5 = StockStatus.low_stock ∧
    productUpdateStatus (-1) 5 = StockStatus.low_stock ∧
    ¬ ((-1 : Int) = 0) ∧ ¬ (0 < (-1 : Int) ∧ (-1 : Int) ≤ 5) ∧
    StockStatus.low_stock ≠ StockStatus.in_stock := by
  decide

/-- C2: whenever createSale returns an error — a validation failure, a
missing product at any item, or insufficient stock at any item — the store
after the call is exactly the store before it: no sale header, no
sale_items rows and no stock change survive the rollback. -/
theorem c2_rollback_on_error (s : Store) (req : SaleRequest) (userId : Nat)
    (invoice : String) (e : SaleError)
    (h : (createSale s req userId invoice).2 = Except.error e) :
    (createSale s req userId invoice).1 = s :=
  createSale_error_store s req userId invoice e h

/-- Witness for C2: a sale referencing an absent product fails and leaves
the store unchanged. -/
theorem c2_witness :
    (createSale baseStore reqMissingProduct 7 invStr).1 = baseStore :=
  c2_rollback_on_error baseStore reqMissingProduct 7 invStr
    (SaleError.productNotFound 99) (by rfl)

/-- C3: with the product found, the stock decrement fails with
insufficientStock — carrying the product's name, available quantity and
requested quantity — exactly when the requested quantity exceeds the
current quantity; on that failure createSale returns the store unchanged; a
request exactly equal to the available quantity succeeds, driving the
product's quantity to 0 and status to out_of_stock; and a successful
decrement never writes a negative quantity. -/
theorem c3_stock_check (s : Store) (saleId userId : Nat) (invoice : String)
    (req : SaleRequest) (item : SaleItemInput) (product : Product)
    (hfind : s.products.find? (fun p => p.id == item.product_id) = some product)
    (hreq : req.items = some [item])
    (hgt : truthyInt req.grand_total = true) :
    (processItems saleId [item] s =
        Except.error (SaleError.insufficientStock product.name product.quantity
          item.quantity) ↔
      product.quantity < item.quantity) ∧
    (product.quantity < item.quantity →
      createSale s req userId invoice =
        (s, Except.error (SaleError.insufficientStock product.name
          product.quantity item.quantity))) ∧
    (item.quantity = product.quantity →
      ∃ s2, processItems saleId [item] s = Except.ok s2 ∧
        s2.products.find? (fun p => p.id == item.product_id) =
          some { product with quantity := 0, status := StockStatus.out_of_stock }) ∧
    (∀ s2, processItems saleId [item] s = Except.ok s2 →
      ∀ p ∈ s2.products, p.id = item.product_id → 0 ≤ p.quantity) := by
  refine ⟨?_, ?_, ?_, ?_⟩
  · by_cases hq : product.quantity < item.quantity
    · simp [processItems, hfind, hq]
    · rw [processItems_cons_ok saleId item [] s product hfind hq]
      simp only [processItems]
      constructor
      · intro hcontra
        exact absurd hcontra (by simp)
      · intro hcontra
        exact absurd hcontra hq
  · intro hq
    rw [createSale_run s req userId invoice [item] hreq (by simp) hgt]
    have hfw : (insertHeader s req userId invoice).products.find?
        (fun p => p.id == item.product_id) = some product := by
      rw [insertHeader_products]
      exact hfind
    simp [processItems, hfw, hq]
  · intro heq
    have hq : ¬ product.quantity < item.quantity := by omega
    rw [processItems_cons_ok saleId item [] s product hfind hq]
    refine ⟨_, rfl, ?_⟩
    simp only
    have hzero : product.quantity - item.quantity = 0 := by omega
    rw [hzero]
    have hred : salesNewStatus 0 product.min_stock = StockStatus.out_of_stock := by
      simp [salesNewStatus]
    rw [hred, updateProducts]
    exact find_map_upd item.product_id
      (fun p => { p with quantity := 0, status := StockStatus.out_of_stock })
      (fun p => rfl) s.products product hfind
  · intro s2 hok p hp hpid
    by_cases hq : product.quantity < item.quantity
    · rw [show processItems saleId [item] s =
          Except.error (SaleError.insufficientStock product.name product.quantity
            item.quantity) from by simp [processItems, hfind, hq]] at hok
      exact absurd hok (by simp)
    · rw [processItems_cons_ok saleId item [] s product hfind hq] at hok
      simp only [processItems, Except.ok.injEq] at hok
      subst hok
      simp only [updateProducts] at hp
      rcases List.mem_map.mp hp with ⟨p0, _, rfl⟩
      by_cases hmatch : (p0.id == item.product_id) = true
      · simp only [if_pos hmatch]
        omega
      · rw [if_neg hmatch] at hpid ⊢
        exact absurd hpid (by simpa using hmatch)

/-- Witness for C3: requesting 9 of product A (stock 5) fails with
insufficientStock naming A, 5 available, 9 requested, and the store is
unchanged. -/
theorem c3_witness :
    createSale baseStore (mkReq [itemQty 1 9] 90) 7 invStr =
      (baseStore, Except.error
        (SaleError.insufficientStock prodA.name prodA.quantity 9)) :=
  (c3_stock_check baseStore 1 7 invStr (mkReq [itemQty 1 9] 90) (itemQty 1 9)
    prodA (by rfl) (by rfl) (by rfl)).2.1 (by decide)

/-- C4: items are processed strictly sequentially and each stock check reads
the quantity already decremented by earlier items of the same sale: when two
items reference the same product, the first fits the stock alone, but the
two together exceed it, the second item fails with insufficientStock whose
available quantity is the already-decremented one, and the whole sale is
rolled back. -/
theorem c4_sequential_consistency (s : Store) (userId : Nat) (invoice : String)
    (req : SaleRequest) (i1 i2 : SaleItemInput) (product : Product)
    (hfind : s.products.find? (fun p => p.id == i1.product_id) = some product)
    (hsame : i2.product_id = i1.product_id)
    (h1 : i1.quantity ≤ product.quantity)
    (hsum : product.quantity < i1.quantity + i2.quantity)
    (hreq : req.items = some [i1, i2])
    (hgt : truthyInt req.grand_total = true) :
    createSale s req userId invoice =
      (s, Except.error (SaleError.insufficientStock product.name
        (product.quantity - i1.quantity) i2.quantity)) := by
  rw [createSale_run s req userId invoice [i1, i2] hreq (by simp) hgt]
  have hfw : (insertHeader s req userId invoice).products.find?
      (fun p => p.id == i1.product_id) = some product := by
    rw [insertHeader_products]
    exact hfind
  rw [processItems_cons_ok _ i1 [i2] (insertHeader s req userId invoice) product
    hfw (by omega)]
  have hfw2 : (updateProducts i1.product_id (product.quantity - i1.quantity)
      (salesNewStatus (product.quantity - i1.quantity) product.min_stock)
      (insertHeader s req userId invoice).products).find?
        (fun p => p.id == i2.product_id) =
      some { product with
                 quantity := product.quantity - i1.quantity,
                 status := salesNewStatus (product.quantity - i1.quantity)
                   product.min_stock } := by
    rw [hsame, updateProducts]
    exact find_map_upd i1.product_id
      (fun p => { p with
                    quantity := product.quantity - i1.quantity,
                    status := salesNewStatus (product.quantity - i1.quantity)
                      product.min_stock })
      (fun p => rfl) (insertHeader s req userId invoice).products product hfw
  have hrun : processItems (insertHeader s req userId invoice).lastInsertRowid [i2]
      { insertHeader s req userId invoice with
          sale_items := (insertHeader s req userId invoice).sale_items ++
            [mkSaleItemRow (insertHeader s req userId invoice).lastInsertRowid i1]
          products := updateProducts i1.product_id
            (product.quantity - i1.quantity)
            (salesNewStatus (product.quantity - i1.quantity) product.min_stock)
            (insertHeader s req userId invoice).products } =
      Except.error (SaleError.insufficientStock product.name
        (product.quantity - i1.quantity) i2.quantity) :=
    processItems_cons_insufficient _ i2 [] _ _ hfw2
      (show product.quantity - i1.quantity < i2.quantity by omega)
  rw [hrun]

/-- Witness for C4: two items of quantity 3 on product A (stock 5): the
second fails seeing only 2 available, and the store is unchanged. -/
theorem c4_witness :
    createSale baseStore (mkReq [itemQty 1 3, itemQty 1 3] 60) 7 invStr =
      (baseStore, Except.error
        (SaleError.insufficientStock prodA.name 2 3)) :=
  c4_sequential_consistency baseStore 7 invStr
    (mkReq [itemQty 1 3, itemQty 1 3] 60) (itemQty 1 3) (itemQty 1 3) prodA
    (by rfl) (by rfl) (by decide) (by decide) (by rfl) (by rfl)

/-- C8: createSale never checks that an item's quantity is positive: any
integer quantity n ≤ stock passes the check and the sale commits, the
product's new quantity being stock − n; with n = 0 the stock is unchanged
and with n < 0 the stock strictly increases. -/
theorem c8_no_positivity_check (s : Store) (userId : Nat) (invoice : String)
    (req : SaleRequest) (item : SaleItemInput) (product : Product)
    (hfind : s.products.find? (fun p => p.id == item.product_id) = some product)
    (hreq : req.items = some [item])
    (hgt : truthyInt req.grand_total = true)
    (hn : item.quantity ≤ product.quantity) :
    (∃ s2, createSale s req userId invoice =
        (s2, Except.ok (insertHeader s req userId invoice).lastInsertRowid) ∧
      s2.products.find? (fun p => p.id == item.product_id) =
        some { product with
                 quantity := product.quantity - item.quantity,
                 status := salesNewStatus (product.quantity - item.quantity)
                   product.min_stock }) ∧
    (item.quantity = 0 → product.quantity - item.quantity = product.quantity) ∧
    (item.quantity < 0 → product.quantity < product.quantity - item.quantity) := by
  refine ⟨?_, by omega, by omega⟩
  rw [createSale_run s req userId invoice [item] hreq (by simp) hgt]
  have hfw : (insertHeader s req userId invoice).products.find?
      (fun p => p.id == item.product_id) = some product := by
    rw [insertHeader_products]
    exact hfind
  rw [processItems_cons_ok _ item [] (insertHeader s req userId invoice) product
    hfw (by omega)]
  simp only [processItems]
  refine ⟨_, rfl, ?_⟩
  show (updateProducts item.product_id (product.quantity - item.quantity)
      (salesNewStatus (product.quantity - item.quantity) product.min_stock)
      (insertHeader s req userId invoice).products).find?
        (fun p => p.id == item.product_id) = _
  rw [updateProducts]
  exact find_map_upd item.product_id
    (fun p => { p with
                  quantity := product.quantity - item.quantity,
                  status := salesNewStatus (product.quantity - item.quantity)
                    product.min_stock })
    (fun p => rfl) (insertHeader s req userId invoice).products product hfw

/-- Witness for C8: a sale with quantity -4 commits and raises product A's
stock from 5 to 9. -/
theorem c8_witness :
    ((∃ s2, createSale baseStore (mkReq [itemQty 1 (-4)] 10) 7 invStr =
        (s2, Except.ok (insertHeader baseStore (mkReq [itemQty 1 (-4)] 10) 7
          invStr).lastInsertRowid) ∧
      s2.products.find? (fun p => p.id == (itemQty 1 (-4)).product_id) =
        some { prodA with
                 quantity := prodA.quantity - (itemQty 1 (-4)).quantity,
                 status := salesNewStatus
                   (prodA.quantity - (itemQty 1 (-4)).quantity)
                   prodA.min_stock }) ∧
    ((itemQty 1 (-4)).quantity = 0 →
      prodA.quantity - (itemQty 1 (-4)).quantity = prodA.quantity) ∧
    ((itemQty 1 (-4)).quantity < 0 →
      prodA.quantity < prodA.quantity - (itemQty 1 (-4)).quantity)) :=
  c8_no_positivity_check baseStore 7 invStr (mkReq [itemQty 1 (-4)] 10)
    (itemQty 1 (-4)) prodA (by rfl) (by rfl) (by rfl) (by decide)

/-- C9 (amended): the persisted sale-item total equals the caller-provided
total when a truthy (nonzero) total is provided, and quantity×price when
the total is absent — or provided as 0, which JavaScript's `||` treats as
absent. -/
theorem c9_item_total (saleId : Nat) (s : Store) (item : SaleItemInput)
    (product : Product)
    (hfind : s.products.find? (fun p => p.id == item.product_id) = some product)
    (hstock : ¬ product.quantity < item.quantity) :
    ∃ s2, processItems saleId [item] s = Except.ok s2 ∧
      s2.sale_items = s.sale_items ++ [mkSaleItemRow saleId item] ∧
      (∀ t, item.total = some t → t ≠ 0 → (mkSaleItemRow saleId item).total = t) ∧
      ((item.total = none ∨ item.total = some 0) →
        (mkSaleItemRow saleId item).total = item.quantity * item.price) := by
  rw [processItems_cons_ok saleId item [] s product hfind hstock]
  simp only [processItems]
  refine ⟨_, rfl, rfl, ?_, ?_⟩
  · intro t ht hne
    simp [mkSaleItemRow, itemTotal, ht, hne]
  · intro h
    rcases h with h | h <;> simp [mkSaleItemRow, itemTotal, h]

/-- Witness for C9: an item with provided total 7 persists 7. -/
theorem c9_witness :
    ∃ s2, processItems 1 [⟨1, 2, 5, some 7⟩] baseStore = Except.ok s2 ∧
      s2.sale_items = baseStore.sale_items ++ [mkSaleItemRow 1 ⟨1, 2, 5, some 7⟩] ∧
      (∀ t, (⟨1, 2, 5, some 7⟩ : SaleItemInput).total = some t → t ≠ 0 →
        (mkSaleItemRow 1 ⟨1, 2, 5, some 7⟩).total = t) ∧
      (((⟨1, 2, 5, some 7⟩ : SaleItemInput).total = none ∨
          (⟨1, 2, 5, some 7⟩ : SaleItemInput).total = some 0) →
        (mkSaleItemRow 1 ⟨1, 2, 5, some 7⟩).total = 2 * 5) :=
  c9_item_total 1 baseStore ⟨1, 2, 5, some 7⟩ prodA (by rfl) (by decide)

/-- C9 counterexample: the caller provides total 0 (quantity 2, price 5) but
the persisted total is 10, not the provided 0 — a provided total is
persisted only when it is truthy. -/
theorem c9_counterexample :
    itemZeroTotal.total = some 0 ∧
    (processItems 1 [itemZeroTotal] baseStore).toOption.map
        (fun s2 => s2.sale_items.map SaleItemRow.total) = some [10] ∧
    (10 : Int) ≠ 0 := by
  decide

theorem truthy_jsOrZero (o : Option Int) (h : truthyInt o = true) :
    jsOrZero o ≠ 0 := by
  cases o with
  | none => simp [truthyInt] at h
  | some v =>
    simp only [truthyInt, decide_eq_true_eq] at h
    simpa [jsOrZero] using h

/-- C7 (amended): createSale rejects with a validation error — leaving the
store unchanged — exactly when items is missing/not a list, items is empty,
or grand_total is absent or not truthy; consequently every sale row a
successful call adds has grand_total ≠ 0.  (A negative grand_total is
truthy and commits, so grand_total > 0 does not hold.) -/
theorem c7_validation (s : Store) (req : SaleRequest) (userId : Nat)
    (invoice : String) :
    ((∃ msg, (createSale s req userId invoice).2 =
        Except.error (SaleError.validation msg)) ↔
      (req.items = none ∨ req.items = some [] ∨
        truthyInt req.grand_total = false)) ∧
    ((∃ msg, (createSale s req userId invoice).2 =
        Except.error (SaleError.validation msg)) →
      (createSale s req userId invoice).1 = s) ∧
    (∀ s2 saleId, createSale s req userId invoice = (s2, Except.ok saleId) →
      ∀ r ∈ s2.sales, r ∈ s.sales ∨ r.grand_total ≠ 0) := by
  refine ⟨⟨?_, ?_⟩, ?_, ?_⟩
  · rintro ⟨msg, h⟩
    cases hl : req.items with
    | none => exact Or.inl rfl
    | some l =>
      by_cases hlen : l.length = 0
      · exact Or.inr (Or.inl (by rw [List.length_eq_zero.mp hlen]))
      · by_cases hgt : truthyInt req.grand_total = false
        · exact Or.inr (Or.inr hgt)
        · exfalso
          have hgt2 := Bool.eq_true_of_not_eq_false hgt
          rw [createSale_run s req userId invoice l hl hlen hgt2] at h
          cases hrun : processItems (insertHeader s req userId invoice).lastInsertRowid
              l (insertHeader s req userId invoice) with
          | error e =>
            rw [hrun] at h
            simp only [Except.error.injEq] at h
            rw [h] at hrun
            exact processItems_no_validation _ l _ msg hrun
          | ok w2 =>
            rw [hrun] at h
            simp at h
  · intro h
    unfold createSale
    rcases h with hnone | hempty | hgt
    · simp [hnone]
    · simp [hempty]
    · cases hl : req.items with
      | none => simp
      | some l =>
        by_cases hlen : l.length = 0
        · simp [hlen]
        · simp [hlen, hgt]
  · rintro ⟨msg, h⟩
    exact createSale_error_store s req userId invoice (SaleError.validation msg) h
  · intro s2 saleId h r hr
    obtain ⟨items, hitems, hlen, hgt, hsid, hrun⟩ :=
      createSale_ok_inv s req userId invoice s2 saleId h
    have hsales := (processItems_ok_shape _ items _ _ hrun).1
    rw [hsales] at hr
    by_cases hpm : paymentMethodOk (jsOrStr req.payment_method defaultPayment) = true
    · rw [show (insertHeader s req userId invoice).sales = s.sales ++
          [{ id := s.nextSaleId
             invoice_number := invoice
             user_id := userId
             customer_name := jsOrStr req.customer_name walkInCustomer
             subtotal := jsOrZero req.subtotal
             tax := jsOrZero req.tax
             discount := jsOrZero req.discount
             grand_total := jsOrZero req.grand_total
             payment_method := jsOrStr req.payment_method defaultPayment }] from by
        simp [insertHeader, hpm]] at hr
      rcases List.mem_append.mp hr with hmem | hmem
      · exact Or.inl hmem
      · right
        rcases List.mem_singleton.mp hmem with rfl
        exact truthy_jsOrZero req.grand_total hgt
    · rw [show (insertHeader s req userId invoice).sales = s.sales from by
        simp [insertHeader, hpm]] at hr
      exact Or.inl hr

/-- Witness for C7 at a concrete empty-items request. -/
theorem c7_witness :
    ((∃ msg, (createSale baseStore (mkReq [] 5) 7 invStr).2 =
        Except.error (SaleError.validation msg)) ↔
      ((mkReq [] 5).items = none ∨ (mkReq [] 5).items = some [] ∨
        truthyInt (mkReq [] 5).grand_total = false)) ∧
    ((∃ msg, (createSale baseStore (mkReq [] 5) 7 invStr).2 =
        Except.error (SaleError.validation msg)) →
      (createSale baseStore (mkReq [] 5) 7 invStr).1 = baseStore) ∧
    (∀ s2 saleId, createSale baseStore (mkReq [] 5) 7 invStr =
        (s2, Except.ok saleId) →
      ∀ r ∈ s2.sales, r ∈ baseStore.sales ∨ r.grand_total ≠ 0) :=
  c7_validation baseStore (mkReq [] 5) 7 invStr

/-- C7 counterexample: grand_total = -5 is truthy, so the sale commits with
a negative grand_total — "every committed sale has grand_total > 0" fails on
the code. -/
theorem c7_counterexample :
    (createSale baseStore reqNegTotal 7 invStr).2 = Except.ok 1 ∧
    (createSale baseStore reqNegTotal 7 invStr).1.sales.map SaleRow.grand_total =
      [-5] ∧
    ¬ ((-5 : Int) > 0) := by
  refine ⟨rfl, rfl, by decide⟩

/-- C10: when the sale-header INSERT fails (payment_method outside the
schema's CHECK set), createSale — which attaches no error handler to the
INSERT — still reads last_insert_rowid, processes every item against that
stale id, and commits: the call reports success, no sale header is added,
and the sale_items rows (and stock decrements) are committed against the
stale id. -/
theorem c10_unchecked_header (s : Store) (req : SaleRequest) (userId : Nat)
    (invoice : String) (items : List SaleItemInput) (s2 : Store)
    (hitems : req.items = some items)
    (hlen : items.length ≠ 0)
    (hgt : truthyInt req.grand_total = true)
    (hpm : paymentMethodOk (jsOrStr req.payment_method defaultPayment) = false)
    (hrun : processItems s.lastInsertRowid items s = Except.ok s2) :
    createSale s req userId invoice = (s2, Except.ok s.lastInsertRowid) ∧
    s2.sales = s.sales ∧
    s2.sale_items = s.sale_items ++ items.map (mkSaleItemRow s.lastInsertRowid) := by
  have hins : insertHeader s req userId invoice = s := by
    simp [insertHeader, hpm]
  refine ⟨?_, (processItems_ok_shape _ items _ _ hrun).1,
    (processItems_ok_shape _ items _ _ hrun).2.1⟩
  rw [createSale_run s req userId invoice items hitems hlen hgt, hins, hrun]

/-- Witness for C10: payment_method bitcoin on a connection whose
last_insert_rowid is 7 — the call succeeds, adds no sales row, and commits a
sale_items row with sale_id 7. -/
theorem c10_witness :
    (createSale staleStore reqBadPayment 7 invStr =
      (staleResult, Except.ok staleStore.lastInsertRowid)) ∧
    staleResult.sales = staleStore.sales ∧
    staleResult.sale_items = staleStore.sale_items ++
      [itemQty 1 1].map (mkSaleItemRow staleStore.lastInsertRowid) :=
  c10_unchecked_header staleStore reqBadPayment 7 invStr [itemQty 1 1]
    staleResult (by rfl) (by decide) (by rfl) (by rfl) (by rfl)

theorem voidSale_eq (s : Store) (saleId : Nat) :
    voidSale s saleId =
      if (s.sales.filter (fun r => r.id == saleId)).length = 0 then
        (s, Except.error SaleError.saleNotFound)
      else
        ({ s with
            products := restoreStock
              (s.sale_items.filter (fun si => si.sale_id == saleId)) s.products
            sale_items := s.sale_items.filter (fun si => !(si.sale_id == saleId))
            sales := s.sales.filter (fun r => !(r.id == saleId)) },
         Except.ok ()) := by
  rfl

/-- C1 (amended): every item step of createSale writes the status derived
from the new (quantity, min_stock), so createSale — succeeding or rolled
back — preserves the invariant that every product's stored status equals
the derived status; voidSale's stock restoration, however, updates quantity
without touching status, so the invariant is not re-established by voids. -/
theorem c1_status_invariant (s : Store) (req : SaleRequest) (userId : Nat)
    (invoice : String) (saleId : Nat)
    (hnd : (s.products.map Product.id).Nodup)
    (hinv : ∀ p ∈ s.products, statusOk p) :
    (∀ s2 r, createSale s req userId invoice = (s2, r) →
      ∀ p ∈ s2.products, statusOk p) ∧
    (∀ s2 r, voidSale s saleId = (s2, r) →
      s2.products.map (fun p => (p.id, p.min_stock, p.status, p.name)) =
        s.products.map (fun p => (p.id, p.min_stock, p.status, p.name))) := by
  constructor
  · intro s2 r h
    cases r with
    | error e =>
      have h1 : (createSale s req userId invoice).1 = s :=
        createSale_error_store s req userId invoice e (by rw [h])
      rw [h] at h1
      simp only at h1
      rw [h1]
      exact hinv
    | ok saleId2 =>
      obtain ⟨items, hitems, hlen, hgt, hsid, hrun⟩ :=
        createSale_ok_inv s req userId invoice s2 saleId2 h
      exact processItems_ok_statusOk _ items _ _ hrun
        (by rw [insertHeader_products]; exact hnd)
        (by rw [insertHeader_products]; exact hinv)
  · intro s2 r h
    rw [voidSale_eq] at h
    by_cases hch : (s.sales.filter (fun r => r.id == saleId)).length = 0
    · rw [if_pos hch] at h
      simp only [Prod.mk.injEq] at h
      rw [← h.1]
    · rw [if_neg hch] at h
      simp only [Prod.mk.injEq] at h
      rw [← h.1]
      exact restoreStock_fields _ _

/-- Witness for C1: after selling 3 of product A (5 in stock, min_stock 2)
the stored row is quantity 2 with status low_stock, which satisfies the
derived-status invariant. -/
theorem c1_witness :
    statusOk { id := 1, name := "A", quantity := 2, min_stock := 2,
               status := StockStatus.low_stock } :=
  (c1_status_invariant baseStore (mkReq [itemQty 1 3] 30) 7 invStr 1
    (by decide) (by decide)).1
    (createSale baseStore (mkReq [itemQty 1 3] 30) 7 invStr).1
    (createSale baseStore (mkReq [itemQty 1 3] 30) 7 invStr).2 rfl
    { id := 1, name := "A", quantity := 2, min_stock := 2,
      status := StockStatus.low_stock } (by decide)

/-- C1 counterexample: voidStore satisfies the invariant, but voiding sale 5
restores quantity 3 while leaving status out_of_stock, and the derived
status of (3, 2) is not out_of_stock — the invariant is broken by the
void's stock restoration. -/
theorem c1_counterexample :
    voidStore.products.all (fun p => decide (statusOk p)) = true ∧
    (voidSale voidStore 5).2 = Except.ok () ∧
    (voidSale voidStore 5).1.products.map
        (fun p => (p.quantity, p.min_stock, p.status)) =
      [(3, 2, StockStatus.out_of_stock)] ∧
    salesNewStatus 3 2 ≠ StockStatus.out_of_stock ∧
    deriveStatusSpec 3 2 ≠ StockStatus.out_of_stock := by
  refine ⟨rfl, rfl, rfl, by decide, by decide⟩

/-- C5: voidSale is a right inverse of createSale on stock: voiding a
freshly created sale succeeds, restores every product's quantity to its
exact pre-sale value, and removes the sale row and all of its sale_items
rows (the sales and sale_items tables return to their pre-sale contents). -/
theorem c5_void_reverses_create (s s2 : Store) (req : SaleRequest)
    (userId : Nat) (invoice : String) (saleId : Nat)
    (hnd : (s.products.map Product.id).Nodup)
    (hfreshItems : ∀ si ∈ s.sale_items, si.sale_id ≠ s.nextSaleId)
    (hfreshSales : ∀ r ∈ s.sales, r.id ≠ s.nextSaleId)
    (hpm : paymentMethodOk (jsOrStr req.payment_method defaultPayment) = true)
    (hcreate : createSale s req userId invoice = (s2, Except.ok saleId)) :
    (voidSale s2 saleId).2 = Except.ok () ∧
    qtyView (voidSale s2 saleId).1.products = qtyView s.products ∧
    (voidSale s2 saleId).1.sales = s.sales ∧
    (voidSale s2 saleId).1.sale_items = s.sale_items := by
  obtain ⟨items, hitems, hlen, hgt, hsid, hrun⟩ :=
    createSale_ok_inv s req userId invoice s2 saleId hcreate
  have hwProducts := insertHeader_products s req userId invoice
  have hwItems := insertHeader_sale_items s req userId invoice
  have hwLast : (insertHeader s req userId invoice).lastInsertRowid =
      s.nextSaleId := by
    simp [insertHeader, hpm]
  have hwSales : (insertHeader s req userId invoice).sales = s.sales ++
      [{ id := s.nextSaleId
         invoice_number := invoice
         user_id := userId
         customer_name := jsOrStr req.customer_name walkInCustomer
         subtotal := jsOrZero req.subtotal
         tax := jsOrZero req.tax
         discount := jsOrZero req.discount
         grand_total := jsOrZero req.grand_total
         payment_method := jsOrStr req.payment_method defaultPayment }] := by
    simp [insertHeader, hpm]
  have hsid2 : saleId = s.nextSaleId := by rw [hsid, hwLast]
  have hshape := processItems_ok_shape saleId items _ _ hrun
  have hs2sales : s2.sales = s.sales ++
      [{ id := s.nextSaleId
         invoice_number := invoice
         user_id := userId
         customer_name := jsOrStr req.customer_name walkInCustomer
         subtotal := jsOrZero req.subtotal
         tax := jsOrZero req.tax
         discount := jsOrZero req.discount
         grand_total := jsOrZero req.grand_total
         payment_method := jsOrStr req.payment_method defaultPayment }] := by
    rw [hshape.1, hwSales]
  have hs2items : s2.sale_items = s.sale_items ++
      items.map (mkSaleItemRow saleId) := by
    rw [hshape.2.1, hwItems]
  have hqty : qtyView s2.products =
      s.products.map (fun p => (p.id, p.quantity - itemsDelta p.id items)) := by
    have hq := processItems_ok_qty saleId items _ _ hrun
      (by rw [hwProducts]; exact hnd)
    rw [hq, hwProducts]
  have hfreshItems2 : ∀ si ∈ s.sale_items, si.sale_id ≠ saleId := by
    intro si hsi
    rw [hsid2]
    exact hfreshItems si hsi
  have hfreshSales2 : ∀ r ∈ s.sales, r.id ≠ saleId := by
    intro r hr
    rw [hsid2]
    exact hfreshSales r hr
  have hrows : s2.sale_items.filter (fun si => si.sale_id == saleId) =
      items.map (mkSaleItemRow saleId) := by
    rw [hs2items, List.filter_append,
      (filter_rows_of_ne saleId s.sale_items hfreshItems2).1,
      (filter_mk_rows saleId items).1]
    simp
  have hch : ¬ (s2.sales.filter (fun r => r.id == saleId)).length = 0 := by
    rw [hs2sales, List.filter_append,
      (filter_sales_of_ne saleId s.sales hfreshSales2).1]
    simp [hsid2]
  rw [voidSale_eq, if_neg hch]
  refine ⟨rfl, ?_, ?_, ?_⟩
  · show qtyView (restoreStock
        (s2.sale_items.filter (fun si => si.sale_id == saleId)) s2.products) =
      qtyView s.products
    rw [hrows]
    exact qty_restore_cancel items (items.map (mkSaleItemRow saleId)) s.products
      s2.products hqty (fun pid => rowsDelta_map_mk pid saleId items)
  · show s2.sales.filter (fun r => !(r.id == saleId)) = s.sales
    rw [hs2sales, List.filter_append,
      (filter_sales_of_ne saleId s.sales hfreshSales2).2]
    simp [hsid2]
  · show s2.sale_items.filter (fun si => !(si.sale_id == saleId)) = s.sale_items
    rw [hs2items, List.filter_append,
      (filter_rows_of_ne saleId s.sale_items hfreshItems2).2,
      (filter_mk_rows saleId items).2]
    simp

/-- Witness for C5: create a sale of 3 units of product A on baseStore, void
it, and the quantities, sales table and sale_items table all return to
their pre-sale contents. -/
theorem c5_witness :
    (voidSale createdStore 1).2 = Except.ok () ∧
    qtyView (voidSale createdStore 1).1.products = qtyView baseStore.products ∧
    (voidSale createdStore 1).1.sales = baseStore.sales ∧
    (voidSale createdStore 1).1.sale_items = baseStore.sale_items :=
  c5_void_reverses_create baseStore createdStore (mkReq [itemQty 1 3] 30) 7
    invStr 1 (by decide) (by decide) (by decide) (by rfl) (by rfl)
